import Mathlib

/-!
Verification of the UAV field-report simulation engine.

The development shallowly embeds `signal_propagation.py` and
`datagenerators/generate_field_reports_batch_1.py`.  Machine floats are
modelled by `ℚ` (the spec's non-goals exclude reproducing floating-point
behavior; only the formulas and control logic matter), `np.nan` by an
explicit sentinel, and the two seeded pseudo-random generators by an
explicit stream of draws consumed in program order.  The external
libraries (`geopy.distance.geodesic`, `np.log10`, the `rasterio` raster)
enter as explicit function parameters.
-/

namespace UAV

/-- A value stored in a generated field report: a finite number, the
`np.nan` marker, or a string token written by the corruption pass. -/
inductive FieldVal where
  | num (q : ℚ)
  | nan
  | str (s : String)
  deriving DecidableEq

/-- Pseudo-random source: an explicit stream of raw draws plus a cursor.
Models the seeded `np.random` / `random` generators of the scripts; the
stream holds the successive standardized draws, consumed in program
order. -/
structure Rng where
  stream : ℕ → ℚ
  idx : ℕ

/-- Consume one raw draw from the stream. -/
def Rng.next (r : Rng) : ℚ × Rng :=
  (r.stream r.idx, ⟨r.stream, r.idx + 1⟩)

/-- Model of `random.random()`: one raw draw, contractually in `[0,1)`. -/
def Rng.random (r : Rng) : ℚ × Rng :=
  r.next

/-- Model of `np.random.uniform(a, b)`: scale one raw draw to `[a,b)`. -/
def Rng.uniform (a b : ℚ) (r : Rng) : ℚ × Rng :=
  let ur := r.next
  (a + (b - a) * ur.1, ur.2)

/-- Model of `np.random.normal(mu, sigma)`: the raw stream entry plays
the standardized normal draw, shifted and scaled. -/
def Rng.normal (mu sigma : ℚ) (r : Rng) : ℚ × Rng :=
  let gr := r.next
  (mu + sigma * gr.1, gr.2)

/-- Model of `random.randint(a, b)`: integer draw, inclusive ends. -/
def Rng.randint (a b : ℤ) (r : Rng) : ℤ × Rng :=
  let ur := r.next
  (a + ⌊ur.1 * (b - a + 1)⌋, ur.2)

/-- Model of `np.random.randint(a, b)`: inclusive low, exclusive high. -/
def Rng.np_randint (a b : ℤ) (r : Rng) : ℤ × Rng :=
  let ur := r.next
  (a + ⌊ur.1 * (b - a)⌋, ur.2)

/-- Model of `random.choice(xs)` on a list of strings (`d` is returned
for an out-of-range index, which a valid stream never produces). -/
def Rng.choice (xs : List String) (d : String) (r : Rng) : String × Rng :=
  let ur := r.next
  (xs.getD (⌊ur.1 * xs.length⌋).toNat d, ur.2)

/-- Contract of a real pseudo-random generator: every raw draw lies in
`[0, 1)`. -/
def Rng.valid (r : Rng) : Prop :=
  ∀ n, 0 ≤ r.stream n ∧ r.stream n < 1

/-! ### signal_propagation.py -/

/-- Model of `np.linspace(a, b, num)`: `num` evenly spaced samples from
`a` to `b`, both ends included. -/
def linspace (a b : ℚ) (num : ℕ) : List ℚ :=
  (List.range num).map fun i : ℕ => a + (b - a) * (i : ℚ) / ((num : ℚ) - 1)

/-- Embedding of `line_of_sight_blockage` (signal_propagation.py lines
11-23): interpolate `num` points along the horizontal path and the
straight-line elevation profile, look up terrain at each, take the
worst positive intrusion; the path is clear when that maximum is zero.
`dem lat lon` is the terrain elevation returned by the raster for an
in-coverage point. -/
def line_of_sight_blockage (dem : ℚ → ℚ → ℚ)
    (tx_lat tx_lon tx_elev rx_lat rx_lon rx_elev : ℚ) (num : ℕ) :
    Bool × ℚ :=
  let lats := linspace tx_lat rx_lat num
  let lons := linspace tx_lon rx_lon num
  let elevs := linspace tx_elev rx_elev num
  let terrain_elevs := (lats.zip lons).map fun p => dem p.1 p.2
  let blockage := ((terrain_elevs.zip elevs).map fun p => max (p.1 - p.2) 0).foldr max 0
  let los_clear := blockage == 0
  (los_clear, blockage)

/-- Result triple of `compute_rss`: signal strength (`none` models the
`np.nan` invalid sentinel), blockage depth in meters, and SNR in dB. -/
structure PropagationResult where
  signal_strength : Option ℚ
  blockage_m : ℚ
  snr : ℚ
  deriving DecidableEq

/-- The pre-floor-check signal of `compute_rss` (signal_propagation.py
lines 30-35) with the noise draw made explicit:
`base_strength - 20*log10(distance) + los_penalty + noise`. -/
def raw_signal (geodist : ℚ → ℚ → ℚ → ℚ → ℚ) (log10 : ℚ → ℚ)
    (dem : ℚ → ℚ → ℚ)
    (tx_lat tx_lon tx_elev rx_lat rx_lon rx_elev base_strength k noise : ℚ) : ℚ :=
  let distance := geodist tx_lat tx_lon rx_lat rx_lon
  let lb := line_of_sight_blockage dem tx_lat tx_lon tx_elev rx_lat rx_lon rx_elev 100
  let los_penalty := if lb.1 then 0 else -k * lb.2
  base_strength - 20 * log10 distance + los_penalty + noise

/-- Embedding of `compute_rss` (signal_propagation.py lines 25-39).
`geodist` is `geopy`'s geodesic distance in meters and `log10` is
`np.log10`, both external library calls taken as parameters. -/
def compute_rss (geodist : ℚ → ℚ → ℚ → ℚ → ℚ) (log10 : ℚ → ℚ)
    (dem : ℚ → ℚ → ℚ)
    (tx_lat tx_lon tx_elev rx_lat rx_lon rx_elev : ℚ)
    (base_strength k noise_floor : ℚ) (rng : Rng) :
    PropagationResult × Rng :=
  let distance := geodist tx_lat tx_lon rx_lat rx_lon
  let lb := line_of_sight_blockage dem tx_lat tx_lon tx_elev rx_lat rx_lon rx_elev 100
  let los_clear := lb.1
  let blockage_m := lb.2
  let path_loss := 20 * log10 distance
  let los_penalty := if los_clear then 0 else -k * blockage_m
  let nr := Rng.normal 0 2 rng
  let noise := nr.1
  let signal_strength := base_strength - path_loss + los_penalty + noise
  let snr := signal_strength - noise_floor
  if snr < 0 then (⟨none, blockage_m, snr⟩, nr.2)
  else (⟨some signal_strength, blockage_m, snr⟩, nr.2)

/-- Failure of a raster point lookup. -/
inductive ElevationLookupError where
  | unreadable
  | outside_extent
  deriving DecidableEq

/-- Modelled from the spec: the external raster elevation source
(`rasterio` dataset behind `get_elevation`).  Per the external-interface
contract it answers a point-sample query with a single numeric elevation
or fails when the dataset is unreadable or the point is outside the
covered extent. -/
structure RasterSource where
  readable : Bool
  covered : ℚ → ℚ → Bool
  value : ℚ → ℚ → ℚ

/-- Modelled from the spec: a `src.sample` point query against the
raster, failing when the raster is unreadable or the point is outside
coverage. -/
def RasterSource.sample (src : RasterSource) (lon lat : ℚ) :
    Except ElevationLookupError ℚ :=
  if src.readable = false then .error .unreadable
  else if src.covered lon lat = false then .error .outside_extent
  else .ok (src.value lon lat)

/-- Embedding of `get_elevation` (signal_propagation.py lines 5-9): a
single sample query whose value is returned through `float(val[0])`
(the identity on this rational model); any lookup failure propagates,
since the function installs no handler. -/
def get_elevation (lat lon : ℚ) (src : RasterSource) :
    Except ElevationLookupError ℚ :=
  match src.sample lon lat with
  | .error e => .error e
  | .ok v => .ok v

/-! ### datagenerators/generate_field_reports_batch_1.py -/

/-- The tunable surface of one batch run: bounding box, beacon
location, placement constraints and propagation parameters (the
module-level constants of the script, lines 20-38 and 88-89). -/
structure Config where
  lat_min : ℚ
  lat_max : ℚ
  lon_min : ℚ
  lon_max : ℚ
  beacon_lat : ℚ
  beacon_lon : ℚ
  num_points : ℕ
  min_dist_to_beacon_m : ℚ
  min_dist_between_teams_m : ℚ
  max_attempts : ℕ
  base_strength : ℚ
  k : ℚ
  noise_floor : ℚ

/-- The concrete constants of `generate_field_reports_batch_1.py`. -/
def batch1Config : Config where
  lat_min := 37.1
  lat_max := 37.6
  lon_min := -119.4
  lon_max := -118.8
  beacon_lat := 37.42
  beacon_lon := -119.05
  num_points := 200
  min_dist_to_beacon_m := 1609.34
  min_dist_between_teams_m := 2011.68
  max_attempts := 15000
  base_strength := -30
  k := 0.15
  noise_floor := -120

/-- Embedding of the rejection-sampling `while` loop (script lines
41-60).  `fuel` is the remaining attempt budget (`max_attempts -
attempts`); every candidate draw consumes one unit, whether accepted or
rejected.  A candidate is rejected when it is closer than
`min_dist_to_beacon_m` to the beacon or closer than
`min_dist_between_teams_m` to any already-accepted team. -/
def sampleLoop (geodist : ℚ → ℚ → ℚ → ℚ → ℚ) (cfg : Config) :
    ℕ → List (ℚ × ℚ) → Rng → List (ℚ × ℚ) × Rng
  | 0, team_coords, rng => (team_coords, rng)
  | fuel + 1, team_coords, rng =>
    if team_coords.length < cfg.num_points then
      let la := Rng.uniform cfg.lat_min cfg.lat_max rng
      let lo := Rng.uniform cfg.lon_min cfg.lon_max la.2
      let lat := la.1
      let lon := lo.1
      let dist_to_beacon := geodist lat lon cfg.beacon_lat cfg.beacon_lon
      if dist_to_beacon < cfg.min_dist_to_beacon_m then
        sampleLoop geodist cfg fuel team_coords lo.2
      else
        let too_close := team_coords.any fun q =>
          decide (geodist lat lon q.1 q.2 < cfg.min_dist_between_teams_m)
        if too_close then
          sampleLoop geodist cfg fuel team_coords lo.2
        else
          sampleLoop geodist cfg fuel (team_coords ++ [(lat, lon)]) lo.2
    else (team_coords, rng)

/-- Payload of the `RuntimeError` raised when placement fails (script
line 62): the message interpolates exactly the requested team count and
the attempt budget. -/
structure PlacementError where
  requested : ℕ
  attempt_budget : ℕ
  deriving DecidableEq

/-- The placement stage of the script (lines 38-62): run the sampling
loop from an empty accumulator with the full attempt budget; if fewer
than `num_points` teams were placed, raise. -/
def generate_teams (geodist : ℚ → ℚ → ℚ → ℚ → ℚ) (cfg : Config)
    (rng : Rng) : Except PlacementError (List (ℚ × ℚ) × Rng) :=
  if (sampleLoop geodist cfg cfg.max_attempts [] rng).1.length < cfg.num_points then
    .error ⟨cfg.num_points, cfg.max_attempts⟩
  else .ok (sampleLoop geodist cfg cfg.max_attempts [] rng)

/-- One synthesized field report, with the fields of the record dict
built at script lines 127-139. -/
structure FieldReport where
  report_id : ℕ
  timestamp : ℤ
  team_callsign : String
  latitude : ℚ
  longitude : ℚ
  elevation_m : ℚ
  wind_direction_deg : FieldVal
  ambient_temp_c : ℚ
  battery_level_percent : FieldVal
  signal_strength : FieldVal
  deriving DecidableEq

/-- Left-pad a string with zeros to width `w` (`str.zfill(w)`). -/
def zfill (w : ℕ) (s : String) : String :=
  (List.replicate (w - s.length) '0').asString ++ s

/-- Callsign of the team accepted at position `i` (script line 59):
`f"TEAM{str(len(team_coords)).zfill(3)}"`. -/
def callsign (i : ℕ) : String :=
  "TEAM" ++ zfill 3 (toString (i + 1))

/-- Mission start: 2025-08-21 06:00:00, encoded as seconds from
midnight of the mission day (script line 69). -/
def START_TIME : ℤ := 21600

/-- Start of the solar-storm corruption window, 08:00:00 (line 102). -/
def WINDOW_START : ℤ := 28800

/-- End of the solar-storm corruption window, 09:30:00 (line 102). -/
def WINDOW_END : ℤ := 34200

/-- The per-field probabilistic corruption of the `else` branch (script
lines 107-115): with probability 0.1 replace the callsign by a typo,
and independently with probability 0.05 each, null the signal, replace
the wind direction by a placeholder token, and null the battery level.
Each `if` consumes one `random.random()` draw; each fired `choice`
consumes one more. -/
def corruptFields (r : FieldReport) (rng : Rng) : FieldReport × Rng :=
  let u1 := Rng.random rng
  let cs :=
    if u1.1 < 0.1 then Rng.choice ["Alpha", "alfa", "bravo"] r.team_callsign u1.2
    else (r.team_callsign, u1.2)
  let u2 := Rng.random cs.2
  let sig := if u2.1 < 0.05 then FieldVal.nan else r.signal_strength
  let u3 := Rng.random u2.2
  let wind :=
    if u3.1 < 0.05 then
      let c := Rng.choice ["?", "N/A", ""] "?" u3.2
      (FieldVal.str c.1, c.2)
    else (r.wind_direction_deg, u3.2)
  let u4 := Rng.random wind.2
  let bat := if u4.1 < 0.05 then FieldVal.nan else r.battery_level_percent
  ({ r with
      team_callsign := cs.1
      signal_strength := sig
      wind_direction_deg := wind.1
      battery_level_percent := bat }, u4.2)

/-- The fault-injection branch of the loop body (script lines 102-115):
a report whose timestamp falls in the closed solar-storm window gets
its signal overridden by the malformed token, its wind direction by the
`-999` outlier and its battery by an `np.random.randint(150, 300)`
outlier, skipping the probabilistic rules; otherwise the probabilistic
rules of `corruptFields` run. -/
def injectFaults (r : FieldReport) (rng : Rng) : FieldReport × Rng :=
  if WINDOW_START ≤ r.timestamp ∧ r.timestamp ≤ WINDOW_END then
    let br := Rng.np_randint 150 300 rng
    ({ r with
        signal_strength := FieldVal.str "ERR-&^%"
        wind_direction_deg := FieldVal.num (-999)
        battery_level_percent := FieldVal.num (br.1 : ℚ) }, br.2)
  else corruptFields r rng

/-- One iteration of the report loop (script lines 72-139) for the team
at index `i` placed at `p`: elevation lookups with the 120 m AGL offset
and the 4000 m ceiling, RSS via `compute_rss` with the batch-specific
parameters, ancillary sensor synthesis, timestamp assignment, then fault
injection on the assembled record. -/
def makeReport (geodist : ℚ → ℚ → ℚ → ℚ → ℚ) (log10 : ℚ → ℚ)
    (dem : ℚ → ℚ → ℚ) (cfg : Config) (inc : ℤ) (i : ℕ) (p : ℚ × ℚ)
    (rng : Rng) : FieldReport × Rng :=
  let team_elev := min (dem p.1 p.2 + 120) 4000
  let beacon_elev := dem cfg.beacon_lat cfg.beacon_lon
  let rss := compute_rss geodist log10 dem
    cfg.beacon_lat cfg.beacon_lon beacon_elev p.1 p.2 team_elev
    cfg.base_strength cfg.k cfg.noise_floor rng
  let wind := Rng.uniform 0 360 rss.2
  let temp := Rng.normal 25 5 wind.2
  let bat := Rng.uniform 20 100 temp.2
  let timestamp := START_TIME + i * inc
  let clean : FieldReport :=
    { report_id := i + 1
      timestamp := timestamp
      team_callsign := callsign i
      latitude := p.1
      longitude := p.2
      elevation_m := team_elev
      wind_direction_deg := FieldVal.num wind.1
      ambient_temp_c := temp.1
      battery_level_percent := FieldVal.num bat.1
      signal_strength :=
        match rss.1.signal_strength with
        | some q => FieldVal.num q
        | none => FieldVal.nan }
  injectFaults clean bat.2

/-- The report loop (script lines 72-139) over the accepted team
coordinates, starting at index `i`. -/
def buildReports (geodist : ℚ → ℚ → ℚ → ℚ → ℚ) (log10 : ℚ → ℚ)
    (dem : ℚ → ℚ → ℚ) (cfg : Config) (inc : ℤ) :
    List (ℚ × ℚ) → ℕ → Rng → List FieldReport × Rng
  | [], _, rng => ([], rng)
  | p :: rest, i, rng =>
    let rr := makeReport geodist log10 dem cfg inc i p rng
    let tail := buildReports geodist log10 dem cfg inc rest (i + 1) rr.2
    (rr.1 :: tail.1, tail.2)

/-- Embedding of the whole batch script: place the teams, draw the
per-run timestamp increment (`random.randint(1, 10)` minutes, line 70,
drawn once before the loop), then synthesize one report per team.  A
placement failure aborts the run with no records. -/
def generate_batch (geodist : ℚ → ℚ → ℚ → ℚ → ℚ) (log10 : ℚ → ℚ)
    (dem : ℚ → ℚ → ℚ) (cfg : Config) (rng : Rng) :
    Except PlacementError (List FieldReport) :=
  match generate_teams geodist cfg rng with
  | .error e => .error e
  | .ok tc =>
    let step := Rng.randint 1 10 tc.2
    let inc := 60 * step.1
    .ok (buildReports geodist log10 dem cfg inc tc.1 0 step.2).1

/-- The obstruction depth at interpolation index `i` of the LOS scan:
`max(0, terrain_elevation - line_of_sight_elevation)` at the `i`-th
`linspace` sample of the path. -/
def path_sample_obstruction (dem : ℚ → ℚ → ℚ)
    (tx_lat tx_lon tx_elev rx_lat rx_lon rx_elev : ℚ) (num : ℕ) (i : ℕ) : ℚ :=
  max 0 (dem (tx_lat + (rx_lat - tx_lat) * i / ((num : ℚ) - 1))
             (tx_lon + (rx_lon - tx_lon) * i / ((num : ℚ) - 1)) -
         (tx_elev + (rx_elev - tx_elev) * i / ((num : ℚ) - 1)))

/-- A symmetric squared-Euclidean surrogate distance, used to
instantiate the abstract geodesic-distance parameter in concrete
checks. -/
def geodistSym (a b c d : ℚ) : ℚ := (a - c) * (a - c) + (b - d) * (b - d)

/-- A small configuration under which placement must fail: no two
distinct points of the 10-by-10 box are 100 apart, so a second team can
never be placed. -/
def cfgTiny : Config where
  lat_min := 0
  lat_max := 10
  lon_min := 0
  lon_max := 10
  beacon_lat := 100
  beacon_lon := 100
  num_points := 2
  min_dist_to_beacon_m := 1
  min_dist_between_teams_m := 100
  max_attempts := 3
  base_strength := 0
  k := 0
  noise_floor := 0

/-- The all-zeros random stream. -/
def rngZero : Rng := ⟨fun _ => 0, 0⟩

/-- Projection of a run outcome onto its error payload. -/
def placementFailure {α : Type} : Except PlacementError α → Option PlacementError
  | .error e => some e
  | .ok _ => none

/-- The constant one-half random stream, a valid generator stream. -/
def rngHalf : Rng := ⟨fun _ => 1/2, 0⟩

/-- A configuration asking for zero teams with a zero attempt budget:
the pipeline trivially succeeds with an empty batch. -/
def cfgZero : Config where
  lat_min := 0
  lat_max := 1
  lon_min := 0
  lon_max := 1
  beacon_lat := 0
  beacon_lon := 0
  num_points := 0
  min_dist_to_beacon_m := 0
  min_dist_between_teams_m := 0
  max_attempts := 0
  base_strength := 0
  k := 0
  noise_floor := 0

/-- A clean report whose timestamp sits exactly on the closing boundary
of the corruption window. -/
def reportBoundary : FieldReport where
  report_id := 1
  timestamp := WINDOW_END
  team_callsign := "TEAM001"
  latitude := 0
  longitude := 0
  elevation_m := 0
  wind_direction_deg := FieldVal.num 0
  ambient_temp_c := 0
  battery_level_percent := FieldVal.num 50
  signal_strength := FieldVal.num (-40)

/-! ### Helper lemmas -/

/-- Unfolding of `compute_rss` in terms of the pre-floor-check signal
`raw_signal` with the drawn noise `0 + 2 * stream idx = 2 * stream idx`. -/
lemma compute_rss_unfold (geodist : ℚ → ℚ → ℚ → ℚ → ℚ) (log10 : ℚ → ℚ)
    (dem : ℚ → ℚ → ℚ)
    (tx_lat tx_lon tx_elev rx_lat rx_lon rx_elev base_strength k noise_floor : ℚ)
    (rng : Rng) :
    compute_rss geodist log10 dem tx_lat tx_lon tx_elev rx_lat rx_lon rx_elev
      base_strength k noise_floor rng =
    (if raw_signal geodist log10 dem tx_lat tx_lon tx_elev rx_lat rx_lon rx_elev
          base_strength k (2 * rng.stream rng.idx) - noise_floor < 0 then
      ⟨none,
        (line_of_sight_blockage dem tx_lat tx_lon tx_elev rx_lat rx_lon rx_elev 100).2,
        raw_signal geodist log10 dem tx_lat tx_lon tx_elev rx_lat rx_lon rx_elev
          base_strength k (2 * rng.stream rng.idx) - noise_floor⟩
    else
      ⟨some (raw_signal geodist log10 dem tx_lat tx_lon tx_elev rx_lat rx_lon rx_elev
          base_strength k (2 * rng.stream rng.idx)),
        (line_of_sight_blockage dem tx_lat tx_lon tx_elev rx_lat rx_lon rx_elev 100).2,
        raw_signal geodist log10 dem tx_lat tx_lon tx_elev rx_lat rx_lon rx_elev
          base_strength k (2 * rng.stream rng.idx) - noise_floor⟩,
    ⟨rng.stream, rng.idx + 1⟩) := by
  unfold compute_rss raw_signal Rng.normal Rng.next
  ring_nf
  split_ifs <;> rfl

/-- Every element of a list of rationals is bounded by its
`foldr max 0`. -/
lemma foldr_max_le_of_mem (l : List ℚ) (x : ℚ) (hx : x ∈ l) :
    x ≤ l.foldr max 0 := by
  induction l with
  | nil => cases hx
  | cons a t ih =>
    rcases List.mem_cons.mp hx with h | h
    · subst h; exact le_max_left _ _
    · exact le_trans (ih h) (le_max_right _ _)

/-- For a nonempty list of nonnegative rationals, `foldr max 0` is
attained by some element. -/
lemma foldr_max_mem (l : List ℚ) (hne : l ≠ []) (h0 : ∀ x ∈ l, 0 ≤ x) :
    l.foldr max 0 ∈ l := by
  induction l with
  | nil => exact absurd rfl hne
  | cons a t ih =>
    cases t with
    | nil =>
      simp only [List.foldr]
      have : max a 0 = a := max_eq_left (h0 a (List.mem_singleton_self a))
      simp [this]
    | cons b t' =>
      have hmem := ih (by simp) (fun x hx => h0 x (List.mem_cons_of_mem a hx))
      rw [List.foldr_cons]
      rcases le_total ((b :: t').foldr max 0) a with h | h
      · rw [max_eq_left h]
        exact List.mem_cons_self _ _
      · rw [max_eq_right h]
        exact List.mem_cons_of_mem a hmem

/-- The blockage computed by `line_of_sight_blockage` is the
`foldr max 0` of the per-index sample obstructions. -/
lemma los_blockage_eq_foldr (dem : ℚ → ℚ → ℚ)
    (tx_lat tx_lon tx_elev rx_lat rx_lon rx_elev : ℚ) (num : ℕ) :
    (line_of_sight_blockage dem tx_lat tx_lon tx_elev rx_lat rx_lon rx_elev num).2 =
      ((List.range num).map
        (path_sample_obstruction dem tx_lat tx_lon tx_elev rx_lat rx_lon rx_elev num)).foldr
        max 0 := by
  unfold line_of_sight_blockage linspace path_sample_obstruction
  simp only [List.zip_map', List.map_map]
  congr 1
  apply List.map_congr_left
  intro i _
  simp [max_comm]

/-- The clear flag of `line_of_sight_blockage` holds exactly when the
blockage is zero. -/
lemma los_clear_iff (dem : ℚ → ℚ → ℚ)
    (tx_lat tx_lon tx_elev rx_lat rx_lon rx_elev : ℚ) (num : ℕ) :
    (line_of_sight_blockage dem tx_lat tx_lon tx_elev rx_lat rx_lon rx_elev num).1 = true ↔
      (line_of_sight_blockage dem tx_lat tx_lon tx_elev rx_lat rx_lon rx_elev num).2 = 0 := by
  unfold line_of_sight_blockage
  simp

/-! ### Claim C1 -/

/-- C1: for every transmitter/receiver pair with positive geodesic
distance, when the random noise draw is zero, `compute_rss` produces a
raw signal of `base_strength - 20*log10(distance) + los_penalty`, where
the penalty is `-k` times the obstruction depth when line of sight is
not clear and `0` when it is clear (and that raw signal is what is
returned whenever the SNR floor check passes). -/
theorem compute_rss_zero_noise
    (geodist : ℚ → ℚ → ℚ → ℚ → ℚ) (log10 : ℚ → ℚ) (dem : ℚ → ℚ → ℚ)
    (tx_lat tx_lon tx_elev rx_lat rx_lon rx_elev base_strength k noise_floor : ℚ)
    (rng : Rng)
    (hd : 0 < geodist tx_lat tx_lon rx_lat rx_lon)
    (h0 : rng.stream rng.idx = 0) :
    (compute_rss geodist log10 dem tx_lat tx_lon tx_elev rx_lat rx_lon rx_elev
        base_strength k noise_floor rng).1.snr + noise_floor =
      base_strength - 20 * log10 (geodist tx_lat tx_lon rx_lat rx_lon) +
        (if (line_of_sight_blockage dem tx_lat tx_lon tx_elev rx_lat rx_lon rx_elev 100).1 then 0
         else -k * (line_of_sight_blockage dem tx_lat tx_lon tx_elev rx_lat rx_lon rx_elev 100).2) ∧
    (compute_rss geodist log10 dem tx_lat tx_lon tx_elev rx_lat rx_lon rx_elev
        base_strength k noise_floor rng).1.signal_strength =
      (if (compute_rss geodist log10 dem tx_lat tx_lon tx_elev rx_lat rx_lon rx_elev
          base_strength k noise_floor rng).1.snr < 0 then none
       else some (base_strength - 20 * log10 (geodist tx_lat tx_lon rx_lat rx_lon) +
        (if (line_of_sight_blockage dem tx_lat tx_lon tx_elev rx_lat rx_lon rx_elev 100).1 then 0
         else -k * (line_of_sight_blockage dem tx_lat tx_lon tx_elev rx_lat rx_lon rx_elev 100).2))) := by
  rw [compute_rss_unfold]
  unfold raw_signal
  simp only [h0, mul_zero, add_zero]
  split_ifs with h <;> simp_all

/-- Concrete instantiation of the zero-noise RSS formula. -/
theorem compute_rss_zero_noise_witness :
    (0 : ℚ) < (fun _ _ _ _ => (10 : ℚ)) (0:ℚ) (0:ℚ) (0:ℚ) (0:ℚ) ∧
    (Rng.mk (fun _ => 0) 0).stream (Rng.mk (fun _ => 0) 0).idx = 0 ∧
    ((compute_rss (fun _ _ _ _ => 10) (fun _ => 1) (fun _ _ => 0)
        0 0 0 0 0 0 0 0 0 (Rng.mk (fun _ => 0) 0)).1.snr + 0 =
      0 - 20 * (fun _ => (1:ℚ)) ((fun _ _ _ _ => (10:ℚ)) 0 0 0 0) +
        (if (line_of_sight_blockage (fun _ _ => 0) 0 0 0 0 0 0 100).1 then 0
         else -(0:ℚ) * (line_of_sight_blockage (fun _ _ => 0) 0 0 0 0 0 0 100).2) ∧
     (compute_rss (fun _ _ _ _ => 10) (fun _ => 1) (fun _ _ => 0)
        0 0 0 0 0 0 0 0 0 (Rng.mk (fun _ => 0) 0)).1.signal_strength =
      (if (compute_rss (fun _ _ _ _ => 10) (fun _ => 1) (fun _ _ => 0)
          0 0 0 0 0 0 0 0 0 (Rng.mk (fun _ => 0) 0)).1.snr < 0 then none
       else some (0 - 20 * (fun _ => (1:ℚ)) ((fun _ _ _ _ => (10:ℚ)) 0 0 0 0) +
        (if (line_of_sight_blockage (fun _ _ => 0) 0 0 0 0 0 0 100).1 then 0
         else -(0:ℚ) * (line_of_sight_blockage (fun _ _ => 0) 0 0 0 0 0 0 100).2)))) :=
  ⟨by norm_num, rfl,
    compute_rss_zero_noise (fun _ _ _ _ => 10) (fun _ => 1) (fun _ _ => 0)
      0 0 0 0 0 0 0 0 0 (Rng.mk (fun _ => 0) 0) (by norm_num) rfl⟩

/-! ### Claim C2 -/

/-- C2: for every call, the returned `snr` equals the pre-floor-check
signal minus `noise_floor`; the returned `signal_strength` is the
invalid sentinel exactly when that `snr` is negative and the raw signal
otherwise; and the obstruction depth and the `snr` are returned in both
branches. -/
theorem compute_rss_floor_contract
    (geodist : ℚ → ℚ → ℚ → ℚ → ℚ) (log10 : ℚ → ℚ) (dem : ℚ → ℚ → ℚ)
    (tx_lat tx_lon tx_elev rx_lat rx_lon rx_elev base_strength k noise_floor : ℚ)
    (rng : Rng) :
    (compute_rss geodist log10 dem tx_lat tx_lon tx_elev rx_lat rx_lon rx_elev
        base_strength k noise_floor rng).1.snr =
      raw_signal geodist log10 dem tx_lat tx_lon tx_elev rx_lat rx_lon rx_elev
        base_strength k (2 * rng.stream rng.idx) - noise_floor ∧
    (compute_rss geodist log10 dem tx_lat tx_lon tx_elev rx_lat rx_lon rx_elev
        base_strength k noise_floor rng).1.signal_strength =
      (if (compute_rss geodist log10 dem tx_lat tx_lon tx_elev rx_lat rx_lon rx_elev
          base_strength k noise_floor rng).1.snr < 0 then none
       else some (raw_signal geodist log10 dem tx_lat tx_lon tx_elev rx_lat rx_lon rx_elev
          base_strength k (2 * rng.stream rng.idx))) ∧
    (compute_rss geodist log10 dem tx_lat tx_lon tx_elev rx_lat rx_lon rx_elev
        base_strength k noise_floor rng).1.blockage_m =
      (line_of_sight_blockage dem tx_lat tx_lon tx_elev rx_lat rx_lon rx_elev 100).2 := by
  rw [compute_rss_unfold]
  split_ifs with h <;> simp_all

/-! ### Claim C3 -/

/-- C3: the obstruction returned by the LOS analyzer is the maximum
over all interpolated path samples of
`max(0, terrain_elevation - line_of_sight_elevation)` — attained at
some sample and bounding every sample, hence the worst single
obstruction and not a sum — and the clear flag is true exactly when
that obstruction is zero. -/
theorem line_of_sight_blockage_worst_sample (dem : ℚ → ℚ → ℚ)
    (tx_lat tx_lon tx_elev rx_lat rx_lon rx_elev : ℚ) (num : ℕ)
    (hnum : 2 ≤ num) :
    (∃ i, i < num ∧
      (line_of_sight_blockage dem tx_lat tx_lon tx_elev rx_lat rx_lon rx_elev num).2 =
        path_sample_obstruction dem tx_lat tx_lon tx_elev rx_lat rx_lon rx_elev num i) ∧
    (∀ i, i < num →
      path_sample_obstruction dem tx_lat tx_lon tx_elev rx_lat rx_lon rx_elev num i ≤
        (line_of_sight_blockage dem tx_lat tx_lon tx_elev rx_lat rx_lon rx_elev num).2) ∧
    ((line_of_sight_blockage dem tx_lat tx_lon tx_elev rx_lat rx_lon rx_elev num).1 = true ↔
      (line_of_sight_blockage dem tx_lat tx_lon tx_elev rx_lat rx_lon rx_elev num).2 = 0) := by
  have heq := los_blockage_eq_foldr dem tx_lat tx_lon tx_elev rx_lat rx_lon rx_elev num
  refine ⟨?_, ?_, los_clear_iff dem tx_lat tx_lon tx_elev rx_lat rx_lon rx_elev num⟩
  · have hne : (List.range num).map
        (path_sample_obstruction dem tx_lat tx_lon tx_elev rx_lat rx_lon rx_elev num) ≠ [] := by
      simp only [ne_eq, List.map_eq_nil_iff, List.range_eq_nil]
      omega
    have h0 : ∀ x ∈ (List.range num).map
        (path_sample_obstruction dem tx_lat tx_lon tx_elev rx_lat rx_lon rx_elev num), 0 ≤ x := by
      intro x hx
      obtain ⟨i, _, rfl⟩ := List.mem_map.mp hx
      exact le_max_left 0 _
    have hmem := foldr_max_mem _ hne h0
    rw [← heq] at hmem
    obtain ⟨i, hi, hival⟩ := List.mem_map.mp hmem
    exact ⟨i, List.mem_range.mp hi, hival.symm⟩
  · intro i hi
    have hmem : path_sample_obstruction dem tx_lat tx_lon tx_elev rx_lat rx_lon rx_elev num i ∈
        (List.range num).map
          (path_sample_obstruction dem tx_lat tx_lon tx_elev rx_lat rx_lon rx_elev num) :=
      List.mem_map_of_mem _ (List.mem_range.mpr hi)
    have := foldr_max_le_of_mem _ _ hmem
    rwa [← heq] at this

/-- Concrete instantiation of the worst-sample characterization at a
two-sample scan over flat terrain. -/
theorem line_of_sight_blockage_worst_sample_witness :
    2 ≤ 2 ∧
    ((∃ i, i < 2 ∧
      (line_of_sight_blockage (fun _ _ => 1) 0 0 0 0 0 0 2).2 =
        path_sample_obstruction (fun _ _ => 1) 0 0 0 0 0 0 2 i) ∧
    (∀ i, i < 2 →
      path_sample_obstruction (fun _ _ => 1) 0 0 0 0 0 0 2 i ≤
        (line_of_sight_blockage (fun _ _ => 1) 0 0 0 0 0 0 2).2) ∧
    ((line_of_sight_blockage (fun _ _ => 1) 0 0 0 0 0 0 2).1 = true ↔
      (line_of_sight_blockage (fun _ _ => 1) 0 0 0 0 0 0 2).2 = 0)) :=
  ⟨by decide, line_of_sight_blockage_worst_sample (fun _ _ => 1) 0 0 0 0 0 0 2 (by decide)⟩

/-! ### Claim C7 -/

/-- C7: for every point outside the raster's covered extent, and
whenever the raster is unreadable, `get_elevation` fails with an
`ElevationLookupError` rather than returning a numeric elevation. -/
theorem get_elevation_fails_outside_or_unreadable
    (lat lon : ℚ) (src : RasterSource)
    (h : src.readable = false ∨ src.covered lon lat = false) :
    (∃ e, get_elevation lat lon src = .error e) ∧
    ∀ q : ℚ, get_elevation lat lon src ≠ .ok q := by
  unfold get_elevation RasterSource.sample
  rcases h with h | h
  · simp [h]
  · cases hr : src.readable <;> simp [h, hr]

/-- Concrete instantiation: an unreadable raster makes the lookup
fail. -/
theorem get_elevation_fails_witness :
    ((RasterSource.mk false (fun _ _ => true) (fun _ _ => 0)).readable = false ∨
      (RasterSource.mk false (fun _ _ => true) (fun _ _ => 0)).covered 0 0 = false) ∧
    ((∃ e, get_elevation 0 0 (RasterSource.mk false (fun _ _ => true) (fun _ _ => 0)) = .error e) ∧
     ∀ q : ℚ, get_elevation 0 0 (RasterSource.mk false (fun _ _ => true) (fun _ _ => 0)) ≠ .ok q) :=
  ⟨Or.inl rfl,
    get_elevation_fails_outside_or_unreadable 0 0
      (RasterSource.mk false (fun _ _ => true) (fun _ _ => 0)) (Or.inl rfl)⟩

/-! ### Claim C4 -/

/-- The rejection-sampling loop preserves the separation invariants of
its accumulator: distance to the beacon at least
`min_dist_to_beacon_m`, and pairwise distance at least
`min_dist_between_teams_m`. -/
lemma sampleLoop_invariant (geodist : ℚ → ℚ → ℚ → ℚ → ℚ) (cfg : Config)
    (hsym : ∀ a b c d, geodist a b c d = geodist c d a b) (fuel : ℕ) :
    ∀ (acc : List (ℚ × ℚ)) (rng : Rng),
      (∀ p ∈ acc, cfg.min_dist_to_beacon_m ≤ geodist p.1 p.2 cfg.beacon_lat cfg.beacon_lon) →
      acc.Pairwise (fun p q => cfg.min_dist_between_teams_m ≤ geodist p.1 p.2 q.1 q.2) →
      (∀ p ∈ (sampleLoop geodist cfg fuel acc rng).1,
          cfg.min_dist_to_beacon_m ≤ geodist p.1 p.2 cfg.beacon_lat cfg.beacon_lon) ∧
        (sampleLoop geodist cfg fuel acc rng).1.Pairwise
          (fun p q => cfg.min_dist_between_teams_m ≤ geodist p.1 p.2 q.1 q.2) := by
  induction fuel with
  | zero =>
    intro acc rng hb hp
    exact ⟨by simpa [sampleLoop] using hb, by simpa [sampleLoop] using hp⟩
  | succ n ih =>
    intro acc rng hb hp
    simp only [sampleLoop]
    split_ifs with h1 h2 h3
    · exact ih _ _ hb hp
    · exact ih _ _ hb hp
    · apply ih
      · intro p hmem
        rcases List.mem_append.mp hmem with h | h
        · exact hb p h
        · rw [List.mem_singleton] at h
          subst h
          exact not_lt.mp h2
      · refine List.pairwise_append.mpr ⟨hp, List.pairwise_singleton _ _, ?_⟩
        intro q hq x hx
        rw [List.mem_singleton] at hx
        subst hx
        simp only [List.any_eq_true, decide_eq_true_eq, not_exists, not_and] at h3
        have := h3 q hq
        simp only []
        rw [hsym]
        exact not_lt.mp this
    · exact ⟨hb, hp⟩

/-- C4: in every sampler run, every accepted point is at least
`min_dist_to_beacon_m` from the beacon, and every two distinct accepted
points are at least `min_dist_between_teams_m` apart (geodesic distance
is symmetric, which is the `hsym` hypothesis on the abstract distance
parameter). -/
theorem sampler_separation (geodist : ℚ → ℚ → ℚ → ℚ → ℚ) (cfg : Config) (rng : Rng)
    (hsym : ∀ a b c d, geodist a b c d = geodist c d a b) :
    (∀ p ∈ (sampleLoop geodist cfg cfg.max_attempts [] rng).1,
      cfg.min_dist_to_beacon_m ≤ geodist p.1 p.2 cfg.beacon_lat cfg.beacon_lon) ∧
    (∀ p ∈ (sampleLoop geodist cfg cfg.max_attempts [] rng).1,
      ∀ q ∈ (sampleLoop geodist cfg cfg.max_attempts [] rng).1,
        p ≠ q → cfg.min_dist_between_teams_m ≤ geodist p.1 p.2 q.1 q.2) := by
  obtain ⟨hb, hp⟩ := sampleLoop_invariant geodist cfg hsym cfg.max_attempts [] rng
    (by simp) List.Pairwise.nil
  refine ⟨hb, ?_⟩
  intro p hpmem q hqmem hne
  refine hp.forall ?_ hpmem hqmem hne
  intro a b hab
  rw [hsym]
  exact hab

/-- Concrete instantiation of the sampler separation invariants. -/
theorem sampler_separation_witness :
    (∀ a b c d, geodistSym a b c d = geodistSym c d a b) ∧
    ((∀ p ∈ (sampleLoop geodistSym cfgTiny cfgTiny.max_attempts [] rngZero).1,
      cfgTiny.min_dist_to_beacon_m ≤ geodistSym p.1 p.2 cfgTiny.beacon_lat cfgTiny.beacon_lon) ∧
    (∀ p ∈ (sampleLoop geodistSym cfgTiny cfgTiny.max_attempts [] rngZero).1,
      ∀ q ∈ (sampleLoop geodistSym cfgTiny cfgTiny.max_attempts [] rngZero).1,
        p ≠ q → cfgTiny.min_dist_between_teams_m ≤ geodistSym p.1 p.2 q.1 q.2)) :=
  ⟨fun a b c d => by unfold geodistSym; ring,
    sampler_separation geodistSym cfgTiny rngZero
      (fun a b c d => by unfold geodistSym; ring)⟩

/-! ### Claim C6 -/

/-- C6 counterexample: with two teams requested, a budget of three
draws and a stream that repeats one point, the run places exactly one
team, yet the raised error carries the requested count `2` and the
attempt budget `3` — neither of which is the number actually placed. -/
theorem placement_error_payload_counterexample :
    (sampleLoop geodistSym cfgTiny cfgTiny.max_attempts [] rngZero).1.length = 1 ∧
    placementFailure (generate_teams geodistSym cfgTiny rngZero) =
      some ⟨2, 3⟩ ∧
    (2 : ℕ) ≠ 1 ∧ (3 : ℕ) ≠ 1 := by
  with_unfolding_all decide

/-- C6 (amended): when fewer than `num_points` teams are placed within
the attempt budget, the run fails with the placement-exhausted error
carrying the requested count and the attempt budget, and the batch
pipeline emits no records at all. -/
theorem placement_exhausted_aborts (geodist : ℚ → ℚ → ℚ → ℚ → ℚ) (log10 : ℚ → ℚ)
    (dem : ℚ → ℚ → ℚ) (cfg : Config) (rng : Rng)
    (h : (sampleLoop geodist cfg cfg.max_attempts [] rng).1.length < cfg.num_points) :
    generate_teams geodist cfg rng = .error ⟨cfg.num_points, cfg.max_attempts⟩ ∧
    generate_batch geodist log10 dem cfg rng = .error ⟨cfg.num_points, cfg.max_attempts⟩ := by
  have ht : generate_teams geodist cfg rng = .error ⟨cfg.num_points, cfg.max_attempts⟩ := by
    unfold generate_teams
    rw [if_pos h]
  refine ⟨ht, ?_⟩
  unfold generate_batch
  rw [ht]

/-- Concrete instantiation of the abort behavior. -/
theorem placement_exhausted_aborts_witness :
    (sampleLoop geodistSym cfgTiny cfgTiny.max_attempts [] rngZero).1.length <
      cfgTiny.num_points ∧
    (generate_teams geodistSym cfgTiny rngZero =
      .error ⟨cfgTiny.num_points, cfgTiny.max_attempts⟩ ∧
    generate_batch geodistSym (fun _ => 0) (fun _ _ => 0) cfgTiny rngZero =
      .error ⟨cfgTiny.num_points, cfgTiny.max_attempts⟩) :=
  ⟨by with_unfolding_all decide,
    placement_exhausted_aborts geodistSym (fun _ => 0) (fun _ _ => 0) cfgTiny rngZero
      (by with_unfolding_all decide)⟩

/-! ### Claim C5 -/

/-- C5: the windowed catastrophic corruption fires exactly on timestamps
inside the closed window.  When it fires, the signal becomes the
malformed token, the wind direction the `-999` outlier and the battery
an out-of-range integer in `[150, 300)`, while the callsign is left
alone and exactly one draw is consumed — the per-field probabilistic
rules are skipped.  When it does not fire, the report goes through
exactly the per-field probabilistic pass `corruptFields`. -/
theorem injectFaults_window (r : FieldReport) (rng : Rng) (hv : Rng.valid rng) :
    ((WINDOW_START ≤ r.timestamp ∧ r.timestamp ≤ WINDOW_END) →
      (injectFaults r rng).1.signal_strength = FieldVal.str "ERR-&^%" ∧
      (injectFaults r rng).1.wind_direction_deg = FieldVal.num (-999) ∧
      (∃ b : ℤ, 150 ≤ b ∧ b < 300 ∧
        (injectFaults r rng).1.battery_level_percent = FieldVal.num (b : ℚ)) ∧
      (injectFaults r rng).1.team_callsign = r.team_callsign ∧
      (injectFaults r rng).2 = ⟨rng.stream, rng.idx + 1⟩) ∧
    (¬(WINDOW_START ≤ r.timestamp ∧ r.timestamp ≤ WINDOW_END) →
      injectFaults r rng = corruptFields r rng) := by
  constructor
  · intro hw
    obtain ⟨h0, h1⟩ := hv rng.idx
    unfold injectFaults Rng.np_randint Rng.next
    rw [if_pos hw]
    refine ⟨rfl, rfl, ⟨150 + ⌊rng.stream rng.idx * (300 - 150)⌋, ?_, ?_, rfl⟩, rfl, rfl⟩
    · have : (0 : ℤ) ≤ ⌊rng.stream rng.idx * (300 - 150)⌋ := by
        apply Int.floor_nonneg.mpr
        positivity
      omega
    · have : ⌊rng.stream rng.idx * (300 - 150)⌋ < 150 := by
        apply Int.floor_lt.mpr
        push_cast
        nlinarith
      omega
  · intro hw
    unfold injectFaults
    rw [if_neg hw]

/-- Concrete instantiation at the closing boundary of the window: the
corruption fires on the boundary timestamp itself. -/
theorem injectFaults_window_witness :
    Rng.valid rngHalf ∧
    (((WINDOW_START ≤ reportBoundary.timestamp ∧ reportBoundary.timestamp ≤ WINDOW_END) →
      (injectFaults reportBoundary rngHalf).1.signal_strength = FieldVal.str "ERR-&^%" ∧
      (injectFaults reportBoundary rngHalf).1.wind_direction_deg = FieldVal.num (-999) ∧
      (∃ b : ℤ, 150 ≤ b ∧ b < 300 ∧
        (injectFaults reportBoundary rngHalf).1.battery_level_percent = FieldVal.num (b : ℚ)) ∧
      (injectFaults reportBoundary rngHalf).1.team_callsign = reportBoundary.team_callsign ∧
      (injectFaults reportBoundary rngHalf).2 = ⟨rngHalf.stream, rngHalf.idx + 1⟩) ∧
    (¬(WINDOW_START ≤ reportBoundary.timestamp ∧ reportBoundary.timestamp ≤ WINDOW_END) →
      injectFaults reportBoundary rngHalf = corruptFields reportBoundary rngHalf)) :=
  ⟨fun n => by constructor <;> norm_num [rngHalf],
    injectFaults_window reportBoundary rngHalf
      (fun n => by constructor <;> norm_num [rngHalf])⟩

/-! ### Claim C10 -/

/-- C10: the fault-injection pass leaves `report_id`, `timestamp`,
`latitude`, `longitude`, `elevation_m` and `ambient_temp_c` unchanged
in both branches — only the callsign, signal, wind direction and
battery level are ever overwritten — and the windowed branch never
alters the callsign. -/
theorem injectFaults_frame (r : FieldReport) (rng : Rng) :
    (injectFaults r rng).1.report_id = r.report_id ∧
    (injectFaults r rng).1.timestamp = r.timestamp ∧
    (injectFaults r rng).1.latitude = r.latitude ∧
    (injectFaults r rng).1.longitude = r.longitude ∧
    (injectFaults r rng).1.elevation_m = r.elevation_m ∧
    (injectFaults r rng).1.ambient_temp_c = r.ambient_temp_c ∧
    ((WINDOW_START ≤ r.timestamp ∧ r.timestamp ≤ WINDOW_END) →
      (injectFaults r rng).1.team_callsign = r.team_callsign) := by
  unfold injectFaults corruptFields
  split_ifs with h <;> simp [h]

/-- Concrete instantiation of the frame property on a boundary-window
report. -/
theorem injectFaults_frame_witness :
    (injectFaults reportBoundary rngHalf).1.report_id = reportBoundary.report_id ∧
    (injectFaults reportBoundary rngHalf).1.timestamp = reportBoundary.timestamp ∧
    (injectFaults reportBoundary rngHalf).1.latitude = reportBoundary.latitude ∧
    (injectFaults reportBoundary rngHalf).1.longitude = reportBoundary.longitude ∧
    (injectFaults reportBoundary rngHalf).1.elevation_m = reportBoundary.elevation_m ∧
    (injectFaults reportBoundary rngHalf).1.ambient_temp_c = reportBoundary.ambient_temp_c ∧
    ((WINDOW_START ≤ reportBoundary.timestamp ∧ reportBoundary.timestamp ≤ WINDOW_END) →
      (injectFaults reportBoundary rngHalf).1.team_callsign = reportBoundary.team_callsign) :=
  injectFaults_frame reportBoundary rngHalf

/-! ### Claim C8 -/

/-- Fault injection never changes a report's id or timestamp. -/
lemma injectFaults_keeps_id_timestamp (r : FieldReport) (rng : Rng) :
    (injectFaults r rng).1.report_id = r.report_id ∧
    (injectFaults r rng).1.timestamp = r.timestamp := by
  unfold injectFaults corruptFields
  split_ifs with h <;> simp

/-- The sampling loop threads the random stream unchanged, advancing
only the cursor. -/
lemma sampleLoop_stream (geodist : ℚ → ℚ → ℚ → ℚ → ℚ) (cfg : Config) (fuel : ℕ) :
    ∀ (acc : List (ℚ × ℚ)) (rng : Rng),
      ((sampleLoop geodist cfg fuel acc rng).2).stream = rng.stream := by
  induction fuel with
  | zero => intro acc rng; rfl
  | succ n ih =>
    intro acc rng
    simp only [sampleLoop]
    split_ifs with h1 h2 h3
    · exact (ih _ _).trans rfl
    · exact (ih _ _).trans rfl
    · exact (ih _ _).trans rfl
    · rfl

/-- The report built for index `i` carries timestamp
`START_TIME + i * inc` and id `i + 1`. -/
lemma makeReport_fields (geodist : ℚ → ℚ → ℚ → ℚ → ℚ) (log10 : ℚ → ℚ)
    (dem : ℚ → ℚ → ℚ) (cfg : Config) (inc : ℤ) (i : ℕ) (p : ℚ × ℚ) (rng : Rng) :
    (makeReport geodist log10 dem cfg inc i p rng).1.timestamp =
      START_TIME + (i : ℤ) * inc ∧
    (makeReport geodist log10 dem cfg inc i p rng).1.report_id = i + 1 := by
  unfold makeReport
  exact ⟨((injectFaults_keeps_id_timestamp _ _).2).trans rfl,
    ((injectFaults_keeps_id_timestamp _ _).1).trans rfl⟩

/-- The report loop produces one report per coordinate, and the report
at offset `j` of a loop started at index `i0` carries timestamp
`START_TIME + (i0 + j) * inc`. -/
lemma buildReports_spec (geodist : ℚ → ℚ → ℚ → ℚ → ℚ) (log10 : ℚ → ℚ)
    (dem : ℚ → ℚ → ℚ) (cfg : Config) (inc : ℤ) :
    ∀ (coords : List (ℚ × ℚ)) (i0 : ℕ) (rng : Rng),
      (buildReports geodist log10 dem cfg inc coords i0 rng).1.length = coords.length ∧
      ∀ j (hj : j < (buildReports geodist log10 dem cfg inc coords i0 rng).1.length),
        ((buildReports geodist log10 dem cfg inc coords i0 rng).1.get ⟨j, hj⟩).timestamp =
          START_TIME + ((i0 : ℤ) + (j : ℤ)) * inc := by
  intro coords
  induction coords with
  | nil =>
    intro i0 rng
    exact ⟨rfl, fun j hj => absurd hj (by simp [buildReports])⟩
  | cons p rest ih =>
    intro i0 rng
    refine ⟨?_, ?_⟩
    · simp only [buildReports, List.length_cons]
      exact congrArg Nat.succ (ih (i0 + 1) _).1
    · intro j hj
      cases j with
      | zero =>
        simp only [buildReports, List.get]
        rw [(makeReport_fields geodist log10 dem cfg inc i0 p rng).1]
        push_cast
        ring
      | succ jj =>
        have hlen : jj < (buildReports geodist log10 dem cfg inc rest (i0 + 1)
            (makeReport geodist log10 dem cfg inc i0 p rng).2).1.length := by
          simp only [buildReports, List.length_cons] at hj
          omega
        have := (ih (i0 + 1) (makeReport geodist log10 dem cfg inc i0 p rng).2).2 jj hlen
        simp only [buildReports, List.get] at this ⊢
        rw [this]
        push_cast
        ring

/-- A valid draw makes `random.randint(1, 10)` land in `[1, 10]`. -/
lemma randint_1_10_bounds (r : Rng) (h0 : 0 ≤ r.stream r.idx) (h1 : r.stream r.idx < 1) :
    1 ≤ (Rng.randint 1 10 r).1 ∧ (Rng.randint 1 10 r).1 ≤ 10 := by
  unfold Rng.randint Rng.next
  norm_num
  have hge : (0 : ℤ) ≤ ⌊r.stream r.idx * (10 : ℚ)⌋ :=
    Int.floor_nonneg.mpr (by positivity)
  have hlt : ⌊r.stream r.idx * (10 : ℚ)⌋ < 10 := by
    apply Int.floor_lt.mpr
    push_cast
    nlinarith
  constructor <;> omega

/-- C8: within one generated batch, the `j`-th report's timestamp is
the fixed start time plus `j` times a step increment drawn once per run
(between one and ten minutes), so the sequence is non-decreasing and
evenly spaced across the whole batch. -/
theorem batch_timestamps_evenly_spaced (geodist : ℚ → ℚ → ℚ → ℚ → ℚ)
    (log10 : ℚ → ℚ) (dem : ℚ → ℚ → ℚ) (cfg : Config) (rng : Rng)
    (reports : List FieldReport) (hv : Rng.valid rng)
    (hok : generate_batch geodist log10 dem cfg rng = .ok reports) :
    ∃ inc : ℤ, 60 ≤ inc ∧ inc ≤ 600 ∧
      (∀ j (hj : j < reports.length),
        (reports.get ⟨j, hj⟩).timestamp = START_TIME + (j : ℤ) * inc) ∧
      (∀ j1 j2 (h1 : j1 < reports.length) (h2 : j2 < reports.length), j1 ≤ j2 →
        (reports.get ⟨j1, h1⟩).timestamp ≤ (reports.get ⟨j2, h2⟩).timestamp) ∧
      (∀ j (hj : j + 1 < reports.length),
        (reports.get ⟨j + 1, hj⟩).timestamp -
          (reports.get ⟨j, Nat.lt_of_succ_lt hj⟩).timestamp = inc) := by
  unfold generate_batch at hok
  cases hgt : generate_teams geodist cfg rng with
  | error e =>
    rw [hgt] at hok
    cases hok
  | ok tc =>
    rw [hgt] at hok
    simp only [Except.ok.injEq] at hok
    subst hok
    have hstream : tc.2.stream = rng.stream := by
      unfold generate_teams at hgt
      split_ifs at hgt with hlt
      cases hgt
      exact sampleLoop_stream geodist cfg cfg.max_attempts [] rng
    obtain ⟨h0, h1⟩ := hv tc.2.idx
    have h0' : 0 ≤ tc.2.stream tc.2.idx := by rw [hstream]; exact h0
    have h1' : tc.2.stream tc.2.idx < 1 := by rw [hstream]; exact h1
    obtain ⟨hs1, hs10⟩ := randint_1_10_bounds tc.2 h0' h1'
    have hb := (buildReports_spec geodist log10 dem cfg
      (60 * (Rng.randint 1 10 tc.2).1) tc.1 0 (Rng.randint 1 10 tc.2).2).2
    refine ⟨60 * (Rng.randint 1 10 tc.2).1, by omega, by omega, ?_, ?_, ?_⟩
    · intro j hj
      rw [hb j hj]
      push_cast
      ring
    · intro j1 j2 hj1 hj2 hle
      rw [hb j1 hj1, hb j2 hj2]
      have hc : (j1 : ℤ) ≤ (j2 : ℤ) := by exact_mod_cast hle
      have h60 : (0 : ℤ) ≤ 60 * (Rng.randint 1 10 tc.2).1 := by omega
      have := mul_le_mul_of_nonneg_right hc h60
      linarith
    · intro j hj
      rw [hb (j + 1) hj, hb j (Nat.lt_of_succ_lt hj)]
      push_cast
      ring

/-- Concrete instantiation of the timestamp law on the empty batch of
the zero-team configuration. -/
theorem batch_timestamps_witness :
    Rng.valid rngHalf ∧
    generate_batch geodistSym (fun _ => 0) (fun _ _ => 0) cfgZero rngHalf = .ok [] ∧
    (∃ inc : ℤ, 60 ≤ inc ∧ inc ≤ 600 ∧
      (∀ j (hj : j < ([] : List FieldReport).length),
        (([] : List FieldReport).get ⟨j, hj⟩).timestamp = START_TIME + (j : ℤ) * inc) ∧
      (∀ j1 j2 (h1 : j1 < ([] : List FieldReport).length)
          (h2 : j2 < ([] : List FieldReport).length), j1 ≤ j2 →
        (([] : List FieldReport).get ⟨j1, h1⟩).timestamp ≤
          (([] : List FieldReport).get ⟨j2, h2⟩).timestamp) ∧
      (∀ j (hj : j + 1 < ([] : List FieldReport).length),
        (([] : List FieldReport).get ⟨j + 1, hj⟩).timestamp -
          (([] : List FieldReport).get ⟨j, Nat.lt_of_succ_lt hj⟩).timestamp = inc)) :=
  ⟨fun n => by constructor <;> norm_num [rngHalf],
    by with_unfolding_all rfl,
    batch_timestamps_evenly_spaced geodistSym (fun _ => 0) (fun _ _ => 0) cfgZero rngHalf []
      (fun n => by constructor <;> norm_num [rngHalf]) (by with_unfolding_all rfl)⟩

/-! ### Claim C9 -/

/-- C9: the full pipeline — sampling, RSS computation, sensor
synthesis and fault injection — is a pure function of the injected
random source and the configuration: two runs over equal random streams
and equal cursors return identical report sequences, field for field. -/
theorem generate_batch_deterministic (geodist : ℚ → ℚ → ℚ → ℚ → ℚ)
    (log10 : ℚ → ℚ) (dem : ℚ → ℚ → ℚ) (cfg : Config) (rng1 rng2 : Rng)
    (hs : ∀ n, rng1.stream n = rng2.stream n) (hidx : rng1.idx = rng2.idx) :
    generate_batch geodist log10 dem cfg rng1 =
      generate_batch geodist log10 dem cfg rng2 := by
  obtain ⟨s1, i1⟩ := rng1
  obtain ⟨s2, i2⟩ := rng2
  have hs' : s1 = s2 := funext hs
  subst hs'
  simp only at hidx
  subst hidx
  rfl

/-- Concrete instantiation of seed determinism. -/
theorem generate_batch_deterministic_witness :
    (∀ n, rngHalf.stream n = rngHalf.stream n) ∧ rngHalf.idx = rngHalf.idx ∧
    generate_batch geodistSym (fun _ => 0) (fun _ _ => 0) cfgZero rngHalf =
      generate_batch geodistSym (fun _ => 0) (fun _ _ => 0) cfgZero rngHalf :=
  ⟨fun _ => rfl, rfl,
    generate_batch_deterministic geodistSym (fun _ => 0) (fun _ _ => 0) cfgZero
      rngHalf rngHalf (fun _ => rfl) rfl⟩

end UAV
